import Mathlib

/-!
Shallow embedding of `src/pious/hrc/hand.py`: the HRC hand-export loader.

The embedding models the node cache (`NodeCache.__getitem__`), the node
record (`HRCNode.__init__`, `take_action`, `as_json`), the action models
(`Action.__init__`, `PreviousAction.__init__`), the per-hand strategy
(`HandStrategy.__init__`) and the session open loop (`HRCSim.__init__`).

Modelling conventions:
- JSON numbers are modelled as `Rat` (exact values; no arithmetic is done
  on them by the code under study, they are only stored and compared).
- A Python dict payload is modelled as a structure of `Option` fields for
  the keys the code looks up; `d["k"]` on a missing key is the `none` case
  and raises `KeyError k`.
- The filesystem is a finite association list from canonical absolute
  paths to parsed node payloads; `os.path.exists` is existence of the
  canonicalized path. Everything is single-threaded, as in the source.
- Python exceptions are an `Except PyErr` result; the distinct exception
  classes (`KeyError`, `TypeError`, `IndexError`, `RuntimeError`,
  `ValueError`) are the constructors of `PyErr`.
- The Python `HRCNode` object stores a back-reference to its `NodeCache`;
  here the cache is passed explicitly to `take_action` instead, so the
  types stay non-recursive. Object identity of cached records is modelled
  as equality of the record stored under the canonical cache key.
-/

deriving instance DecidableEq for Except

namespace Hrc

/-- Python exception classes raised by the code under study. -/
inductive PyErr where
  | keyError (msg : String)
  | typeError (msg : String)
  | indexError (msg : String)
  | runtimeError (msg : String)
  | valueError (msg : String)
deriving DecidableEq

/-! ## String utilities

Python's `str` operations, implemented over the character list underlying
`String` so that every definition evaluates by kernel reduction. -/

/-- Python `s.startswith(pre)`. -/
def strStartsWith (s pre : String) : Bool :=
  pre.data.isPrefixOf s.data

/-- Python `s.endswith(suf)`. -/
def strEndsWith (s suf : String) : Bool :=
  suf.data.isSuffixOf s.data

/-- Splits a character list on `/` (the component view of a POSIX path;
`posixpath` splits with `sep = '/'`). -/
def splitSlash : List Char → List (List Char)
  | [] => [[]]
  | c :: rest =>
    if c = '/' then [] :: splitSlash rest
    else
      match splitSlash rest with
      | [] => [[c]]
      | h :: t => (c :: h) :: t

/-- Python `str.strip(chars)`: removes any leading and trailing characters
that occur in `chars` (a character set, not a suffix — this is exactly the
`.strip(".json")` idiom the source uses to peel the extension). -/
def pyStrip (s chars : String) : String :=
  let cs := chars.data
  String.mk (((s.data.dropWhile (cs.contains ·)).reverse.dropWhile
    (cs.contains ·)).reverse)

/-- The numeric value of a decimal digit character, `none` otherwise. -/
def digitVal (c : Char) : Option Nat :=
  if '0'.toNat ≤ c.toNat ∧ c.toNat ≤ '9'.toNat then some (c.toNat - '0'.toNat)
  else none

/-- Reads a non-empty all-digit character list as a natural number. -/
def digitsToNat : List Char → Option Nat
  | [] => none
  | ds => ds.foldl (fun acc c => do pure ((← acc) * 10 + (← digitVal c)))
      (some 0)

/-- Python `int(s)` on a decimal string: an optional sign followed by
digits; anything else raises `ValueError` (the `none` case). Python also
accepts surrounding whitespace and `_` digit grouping, which never occur
in the filenames this loader touches. -/
def pyInt (s : String) : Option Int :=
  match s.data with
  | '-' :: ds => (digitsToNat ds).map (fun n => -(n : Int))
  | '+' :: ds => (digitsToNat ds).map (fun n => (n : Int))
  | ds => (digitsToNat ds).map (fun n => (n : Int))

/-! ## POSIX path model (`os.path.join`, `os.path.abspath`, `os.path.basename`) -/

/-- `posixpath.join a b` (two-argument form): an absolute second component
discards the first; otherwise the parts are joined with a `/` separator. -/
def pjoin (a b : String) : String :=
  if strStartsWith b "/" then b
  else if a = "" ∨ strEndsWith a "/" then a ++ b
  else a ++ "/" ++ b

/-- Component-collapsing loop of `posixpath.normpath`: drops empty and `.`
components; `..` pops the previous component, except at the root of an
absolute path, and except after an initial run of `..` in a relative path. -/
def normpathComps (isAbs : Bool) :
    List (List Char) → List (List Char) → List (List Char)
  | acc, [] => acc.reverse
  | acc, c :: rest =>
    if c = [] ∨ c = ['.'] then normpathComps isAbs acc rest
    else if c = ['.', '.'] then
      match acc with
      | [] => if isAbs then normpathComps isAbs [] rest
              else normpathComps isAbs [['.', '.']] rest
      | p :: ps =>
        if p = ['.', '.'] then normpathComps isAbs (c :: p :: ps) rest
        else normpathComps isAbs ps rest
    else normpathComps isAbs (c :: acc) rest

/-- `posixpath.normpath`: collapses `//`, `.` and `..`; an empty path
normalizes to `.`; exactly two leading slashes are preserved (POSIX). -/
def normpath (p : String) : String :=
  if p = "" then "."
  else
    let isAbs := strStartsWith p "/"
    let dbl := strStartsWith p "//" ∧ ¬ strStartsWith p "///"
    let body := List.intercalate ['/'] (normpathComps isAbs [] (splitSlash p.data))
    let pre : List Char := if isAbs then (if dbl then ['/', '/'] else ['/']) else []
    let r := pre ++ body
    if r = [] then "." else String.mk r

/-- `os.path.abspath p` with working directory `cwd`:
`normpath(join(getcwd(), p))`. -/
def abspath (cwd p : String) : String :=
  normpath (pjoin cwd p)

/-- `posixpath.basename p`: everything after the last `/`. -/
def basename (p : String) : String :=
  String.mk ((splitSlash p.data).getLastD [])

/-! ## Raw JSON payloads (the dicts the loader reads) -/

/-- One element of a node's `sequence` list, as raw JSON. -/
structure PrevActionJson where
  player : Option Int
  type : Option String
  amount : Option Rat
deriving DecidableEq

/-- One element of a node's `actions` list, as raw JSON. `node` is the
optional successor id (`d.get("node", None)`), `player` the optional
explicit player (`d.get("player", None)`). -/
structure ActionJson where
  player : Option Int
  type : Option String
  amount : Option Rat
  node : Option Int
deriving DecidableEq

/-- One value of a node's `hands` dict, as raw JSON. -/
structure HandJson where
  weight : Option Rat
  played : Option (List Rat)
  evs : Option (List Rat)
deriving DecidableEq

/-- One node file's parsed JSON (`json.loads` of the file contents),
restricted to the keys the loader reads. A `hands` dict is modelled as an
association list in iteration order. -/
structure NodeJson where
  player : Option Int
  street : Option Int
  children : Option Int
  sequence : Option (List PrevActionJson)
  actions : Option (List ActionJson)
  hands : Option (List (String × HandJson))
deriving DecidableEq

/-! ## Action models (`PreviousAction`, `Action`, `HandStrategy`) -/

/-- `PreviousAction`: a previous action in an action sequence. -/
structure PreviousAction where
  player : Int
  type : String
  amount : Rat
deriving DecidableEq

/-- `PreviousAction.__init__`: reads required keys `player`, `type`,
`amount`; a missing key raises `KeyError`. -/
def PreviousAction.init (d : PrevActionJson) : Except PyErr PreviousAction :=
  match d.player with
  | none => .error (.keyError "player")
  | some p =>
    match d.type with
    | none => .error (.keyError "type")
    | some t =>
      match d.amount with
      | none => .error (.keyError "amount")
      | some a => .ok ⟨p, t, a⟩

/-- `Action`: an available action at a node; `next_id` is the successor
node id, `none` for a terminal action. -/
structure Action where
  player : Option Int
  type : String
  amount : Rat
  next_id : Option Int
deriving DecidableEq

/-- `Action.__init__(d)` (the `player` parameter is defaulted to `None` at
every call site in the repository): `type` and `amount` are required keys;
`player` and `node` are read with `.get(..., None)`. The `type` string is
stored verbatim, with no membership check against `action_map`. -/
def Action.init (d : ActionJson) : Except PyErr Action :=
  match d.type with
  | none => .error (.keyError "type")
  | some t =>
    match d.amount with
    | none => .error (.keyError "amount")
    | some a => .ok ⟨d.player, t, a, d.node⟩

/-- `HandStrategy`: one hand combination's strategy at a node.
`hand_data_json` is the deep copy of the raw dict kept for `as_json`. -/
structure HandStrategy where
  hand : String
  hand_data_json : HandJson
  weight : Rat
  played : List Rat
  evs : List Rat
deriving DecidableEq

/-- `HandStrategy.__init__(hand, d)`: requires keys `weight`, `played`,
`evs`; keeps a deep copy of `d`. -/
def HandStrategy.init (hand : String) (d : HandJson) : Except PyErr HandStrategy :=
  match d.weight with
  | none => .error (.keyError "weight")
  | some w =>
    match d.played with
    | none => .error (.keyError "played")
    | some pl =>
      match d.evs with
      | none => .error (.keyError "evs")
      | some e => .ok ⟨hand, d, w, pl, e⟩

/-- `[f(x) for x in l]` where each `f(x)` may raise: the first exception
aborts the whole comprehension. -/
def mapExcept (f : α → Except PyErr β) : List α → Except PyErr (List β)
  | [] => .ok []
  | x :: xs =>
    match f x with
    | .error e => .error e
    | .ok y =>
      match mapExcept f xs with
      | .error e => .error e
      | .ok ys => .ok (y :: ys)

/-! ## Node record (`HRCNode`) -/

/-- `HRCNode`: one loaded decision node. `node_json` is `_node_json`, the
raw payload kept for `as_json`. The four fields read inside the
`try`/`except KeyError` block of `HRCNode.__init__` are `Option`s: `none`
models the attribute never being assigned because the `KeyError` was
caught and printed (the Python back-reference `node_cache` is passed
explicitly to `take_action` instead of being stored). -/
structure HRCNode where
  filename : String
  id : Int
  node_json : NodeJson
  player : Option Int
  street : Option Int
  children : Option Int
  sequence : Option (List PreviousAction)
  actions : List Action
  hands : List (String × HandStrategy)
deriving DecidableEq

/-- The `try` block of `HRCNode.__init__`: the assignments to `player`,
`street`, `children`, `sequence` run in order until the first `KeyError`
(from a missing key, or from `PreviousAction.__init__` on a sequence
element); the `except KeyError` handler prints and falls through, so the
attributes after the failure point are simply never set. -/
def tryFields (d : NodeJson) :
    Option Int × Option Int × Option Int × Option (List PreviousAction) :=
  match d.player with
  | none => (none, none, none, none)
  | some p =>
    match d.street with
    | none => (some p, none, none, none)
    | some s =>
      match d.children with
      | none => (some p, some s, none, none)
      | some c =>
        match d.sequence with
        | none => (some p, some s, some c, none)
        | some sj =>
          match mapExcept PreviousAction.init sj with
          | .error _ => (some p, some s, some c, none)
          | .ok sq => (some p, some s, some c, some sq)

/-- `HRCNode.__init__(node_json_file, node_cache)` given the already
`json.loads`-ed contents `d` of the file. In source order: the id is
`int(basename(file).strip(".json"))` (`ValueError` if not an integer
literal), then the `try` block (KeyErrors caught, see `tryFields`), then
the uncaught reads of `actions` (each element through `Action.__init__`)
and `hands` (each value through `HandStrategy.__init__`). -/
def HRCNode.init (node_json_file : String) (d : NodeJson) :
    Except PyErr HRCNode :=
  let idStr := pyStrip (basename node_json_file) ".json"
  match pyInt idStr with
  | none => .error (.valueError idStr)
  | some nid =>
    let (player, street, children, sequence) := tryFields d
    match d.actions with
    | none => .error (.keyError "actions")
    | some aj =>
      match mapExcept Action.init aj with
      | .error e => .error e
      | .ok acts =>
        match d.hands with
        | none => .error (.keyError "hands")
        | some hj =>
          match mapExcept
              (fun p => (HandStrategy.init p.1 p.2).map (fun hs => (p.1, hs))) hj with
          | .error e => .error e
          | .ok hnds =>
            .ok { filename := node_json_file, id := nid, node_json := d,
                  player := player, street := street, children := children,
                  sequence := sequence, actions := acts, hands := hnds }

/-- `HRCNode.as_json`: returns the raw payload `_node_json`. -/
def HRCNode.as_json (n : HRCNode) : NodeJson :=
  n.node_json

/-! ## Filesystem and node cache -/

/-- The filesystem visible to the loader: canonical absolute path ↦ parsed
node payload. -/
def FS : Type := List (String × NodeJson)

/-- `os.path.exists p` over the model filesystem: existence is invariant
under path normalization, as on a real filesystem. -/
def fexists (fs : FS) (cwd p : String) : Bool :=
  (List.lookup (abspath cwd p) fs).isSome

/-- A value passed as a node reference (`NodeCache.__getitem__`'s `item`),
or as `take_action`'s argument: a Python `int`, a `str`, or any other
object (carried with a description only, since the code never inspects
it beyond `isinstance`). -/
inductive NodeRef where
  | int (n : Int)
  | str (s : String)
  | other (desc : String)
deriving DecidableEq

/-- `NodeCache`: the per-session memo table, canonical path ↦ loaded
record (insertion at the front models dict assignment of an absent key). -/
structure NodeCache where
  nodes_path : String
  cache : List (String × HRCNode)
deriving DecidableEq

/-- The string-branch canonicalization of `NodeCache.__getitem__`: a path
inside the node directory that exists is taken as-is; otherwise a bare
`.json` filename that exists under the node directory is joined to it;
anything else raises a `KeyError` whose message is `No such node ` followed
by the item. Both success branches return the `os.path.abspath` of the
chosen path. -/
def canonStr (fs : FS) (cwd nodes_path s : String) : Except PyErr String :=
  if strStartsWith s nodes_path ∧ strEndsWith s ".json" ∧ fexists fs cwd s then
    .ok (abspath cwd s)
  else if strEndsWith s ".json" ∧ fexists fs cwd (pjoin nodes_path s) then
    .ok (abspath cwd (pjoin nodes_path s))
  else
    .error (.keyError ("No such node " ++ s))

/-- The canonicalization prefix of `NodeCache.__getitem__`: an `int` item
is first rewritten to `abspath(join(nodes_path, f"{item}.json"))` and then
flows through the string branch; a non-`int` non-`str` item leaves
`node_path = None` (the `ok none` case — no exception is raised here). -/
def canonicalize (fs : FS) (cwd nodes_path : String) :
    NodeRef → Except PyErr (Option String)
  | .int n =>
      (canonStr fs cwd nodes_path
        (abspath cwd (pjoin nodes_path (toString n ++ ".json")))).map some
  | .str s => (canonStr fs cwd nodes_path s).map some
  | .other _ => .ok none

/-- `NodeCache.__getitem__(item)`: canonicalize, then check-then-insert on
the memo table. On a miss the backing file is read and parsed exactly once
(the `Nat` in the result counts file parses performed by the call). When
canonicalization left `node_path = None` (non-int/non-str item), the miss
branch runs `HRCNode(None, self)`, whose `os.path.basename(None)` raises
`TypeError` before anything is cached. The `keyError np` case models the
unreachable read-after-exists-check failure (single-threaded model). -/
def NodeCache.getitem (fs : FS) (cwd : String) (c : NodeCache)
    (item : NodeRef) : Except PyErr (HRCNode × NodeCache × Nat) :=
  match canonicalize fs cwd c.nodes_path item with
  | .error e => .error e
  | .ok none =>
      .error (.typeError
        "expected str, bytes or os.PathLike object, not NoneType")
  | .ok (some np) =>
    match List.lookup np c.cache with
    | some n => .ok (n, c, 0)
    | none =>
      match List.lookup np fs with
      | none => .error (.keyError np)
      | some d =>
        match HRCNode.init np d with
        | .error e => .error e
        | .ok n => .ok (n, ⟨c.nodes_path, (np, n) :: c.cache⟩, 1)

/-! ## Traversal (`HRCNode.take_action`) -/

/-- CPython sequence indexing `l[i]`: a negative index counts from the
end; an index that is still out of range raises `IndexError` (the `none`
case). -/
def listPyGet (l : List α) (i : Int) : Option α :=
  let j := if i < 0 then i + l.length else i
  if 0 ≤ j then l.get? j.toNat else none

/-- `HRCNode.take_action(action)`: a non-`int` argument raises
`RuntimeError("Can only take integer actions")`; an `int` indexes
`self.get_actions()` (CPython indexing, so `IndexError` when out of
range); a terminal action (`next_id is None`) returns `None`; otherwise
the successor is resolved through the node cache —
`self.node_cache[a.next_id]` — and the resulting record is returned. The
cache back-reference is passed explicitly; the `Nat` counts file parses. -/
def HRCNode.take_action (fs : FS) (cwd : String) (c : NodeCache)
    (n : HRCNode) (action : NodeRef) :
    Except PyErr (Option HRCNode × NodeCache × Nat) :=
  match action with
  | .int i =>
    match listPyGet n.actions i with
    | none => .error (.indexError "tuple index out of range")
    | some a =>
      match a.next_id with
      | none => .ok (none, c, 0)
      | some nid =>
        match NodeCache.getitem fs cwd c (.int nid) with
        | .error e => .error e
        | .ok (nn, c2, p) => .ok (some nn, c2, p)
  | _ => .error (.runtimeError "Can only take integer actions")

/-! ## Session open (`HRCSim.__init__`) -/

/-- The node-discovery loop of `HRCSim.__init__`: for each directory entry
in `listing` (the `os.listdir(nodes_path)` result), a name not ending in
`.json` is warned about and skipped; otherwise the full path is resolved
through the node cache and the record appended to `self.nodes`. There is
no `try`/`except` around the resolution: any exception escapes the loop
and aborts the whole constructor. -/
def simLoadNodes (fs : FS) (cwd nodes_path : String) :
    List String → NodeCache → List HRCNode →
    Except PyErr (List HRCNode × NodeCache)
  | [], c, acc => .ok (acc.reverse, c)
  | f :: rest, c, acc =>
    if ¬ strEndsWith f ".json" then simLoadNodes fs cwd nodes_path rest c acc
    else
      match NodeCache.getitem fs cwd c (.str (pjoin nodes_path f)) with
      | .error e => .error e
      | .ok (n, c2, _) => simLoadNodes fs cwd nodes_path rest c2 (n :: acc)

/-- `HRCSim.__init__(hand_export_dir)`, restricted to the node graph: the
settings collaborator (`settings.json` / `SolveSettings`) is opaque to the
core and out of scope here. `nodes_path = join(hand_export_dir, "nodes")`,
the cache starts empty, and the discovery loop runs over the directory
listing. -/
def HRCSim.init (fs : FS) (cwd hand_export_dir : String)
    (listing : List String) : Except PyErr (List HRCNode × NodeCache) :=
  let nodes_path := pjoin hand_export_dir "nodes"
  simLoadNodes fs cwd nodes_path listing ⟨nodes_path, []⟩ []

/-! ## Concrete fixture: a two-node hand export

The export of spec §8's end-to-end example: `nodes/0.json` (player 1, two
actions: fold → terminal, raise(200) → node 1) and `nodes/1.json`
(player 2, one action: call → terminal), under working directory `/w`. -/

def fixCwd : String := "/w"

def fixNodesPath : String := "/w/hand/nodes"

def node0Json : NodeJson :=
  { player := some 1, street := some 0, children := some 2,
    sequence := some [],
    actions := some
      [ { player := none, type := some "F", amount := some 0, node := none },
        { player := none, type := some "R", amount := some 200,
          node := some 1 } ],
    hands := some
      [ ("AhAs", { weight := some 1, played := some [0, 1],
                   evs := some [0, 5] }) ] }

def node1Json : NodeJson :=
  { player := some 2, street := some 0, children := some 0,
    sequence := some
      [ { player := some 1, type := some "R", amount := some 200 } ],
    actions := some
      [ { player := none, type := some "C", amount := some 200,
          node := none } ],
    hands := some
      [ ("AhAs", { weight := some 1, played := some [1], evs := some [3] }) ] }

def fixFS : FS :=
  [ ("/w/hand/nodes/0.json", node0Json),
    ("/w/hand/nodes/1.json", node1Json) ]

/-- The empty cache a session starts with. -/
def cache0 : NodeCache := ⟨fixNodesPath, []⟩

/-- The record `HRCNode.__init__` builds for `0.json`. -/
def node0rec : HRCNode :=
  { filename := "/w/hand/nodes/0.json", id := 0, node_json := node0Json,
    player := some 1, street := some 0, children := some 2,
    sequence := some [],
    actions :=
      [ { player := none, type := "F", amount := 0, next_id := none },
        { player := none, type := "R", amount := 200, next_id := some 1 } ],
    hands :=
      [ ("AhAs", { hand := "AhAs",
                   hand_data_json :=
                     { weight := some 1, played := some [0, 1],
                       evs := some [0, 5] },
                   weight := 1, played := [0, 1], evs := [0, 5] }) ] }

/-- The record `HRCNode.__init__` builds for `1.json`. -/
def node1rec : HRCNode :=
  { filename := "/w/hand/nodes/1.json", id := 1, node_json := node1Json,
    player := some 2, street := some 0, children := some 0,
    sequence := some [ { player := 1, type := "R", amount := 200 } ],
    actions :=
      [ { player := none, type := "C", amount := 200, next_id := none } ],
    hands :=
      [ ("AhAs", { hand := "AhAs",
                   hand_data_json :=
                     { weight := some 1, played := some [1],
                       evs := some [3] },
                   weight := 1, played := [1], evs := [3] }) ] }

/-- The cache after node 0 alone has been resolved. -/
def cacheAfter0 : NodeCache :=
  ⟨fixNodesPath, [("/w/hand/nodes/0.json", node0rec)]⟩

/-- The cache after node 0 and then node 1 have been resolved. -/
def cacheAfter01 : NodeCache :=
  ⟨fixNodesPath,
   [("/w/hand/nodes/1.json", node1rec), ("/w/hand/nodes/0.json", node0rec)]⟩

/-- `node0Json` with the required key `player` removed: the corrupt
payload for the silent catch-and-continue bug. -/
def nodeNoPlayerJson : NodeJson :=
  { node0Json with player := none }

/-- `node1Json` with the required key `hands` removed: the corrupt payload
of spec §8's corrupt-sibling test. -/
def nodeNoHandsJson : NodeJson :=
  { node1Json with hands := none }

/-- The fixture filesystem with `1.json` corrupted (missing `hands`). -/
def fixFSCorrupt : FS :=
  [ ("/w/hand/nodes/0.json", node0Json),
    ("/w/hand/nodes/1.json", nodeNoHandsJson) ]

/-! ## General lemmas -/

/-- CPython indexing at a non-negative index is plain list indexing. -/
theorem listPyGet_nonneg (l : List α) (i : Int) (h : 0 ≤ i) :
    listPyGet l i = l.get? i.toNat := by
  simp only [listPyGet]
  rw [if_neg (show ¬ i < 0 by omega), if_pos h]

/-- CPython indexing outside `[-len, len)` yields `IndexError`. -/
theorem listPyGet_out_of_range (l : List α) (i : Int)
    (h : (l.length : Int) ≤ i ∨ i < -(l.length : Int)) :
    listPyGet l i = none := by
  simp only [listPyGet]
  rcases h with h | h
  · rw [if_neg (show ¬ i < 0 by omega), if_pos (show (0 : Int) ≤ i by omega)]
    exact List.get?_eq_none.mpr (by omega)
  · rw [if_pos (show i < 0 by omega),
      if_neg (show ¬ (0 : Int) ≤ i + l.length by omega)]

/-- CPython indexing at a negative in-range index counts from the end. -/
theorem listPyGet_neg_wrap (l : List α) (i : Int)
    (h1 : -(l.length : Int) ≤ i) (h2 : i < 0) :
    listPyGet l i = listPyGet l (i + l.length) := by
  simp only [listPyGet]
  rw [if_pos h2, if_neg (show ¬ (i + (l.length : Int)) < 0 by omega)]

/-- After a successful resolution, the canonical key is bound to the
returned record in the returned cache, the node directory is unchanged,
and the call parsed at most one file. -/
theorem getitem_ok_spec {fs : FS} {cwd : String} {c : NodeCache}
    {r : NodeRef} {k : String} {n : HRCNode} {c2 : NodeCache} {p : Nat}
    (hc : canonicalize fs cwd c.nodes_path r = .ok (some k))
    (h : NodeCache.getitem fs cwd c r = .ok (n, c2, p)) :
    c2.nodes_path = c.nodes_path ∧ List.lookup k c2.cache = some n ∧ p ≤ 1 := by
  simp only [NodeCache.getitem, hc] at h
  rcases hl : List.lookup k c.cache with _ | n0
  · simp only [hl] at h
    rcases hf : List.lookup k fs with _ | d
    · simp only [hf] at h
      exact Except.noConfusion h
    · simp only [hf] at h
      rcases hi : HRCNode.init k d with e | n1
      · simp only [hi] at h
        exact Except.noConfusion h
      · simp only [hi] at h
        injection h with hin
        injection hin with ha hbc
        injection hbc with hb hp
        subst ha
        subst hb
        subst hp
        exact ⟨rfl, List.lookup_cons_self, by omega⟩
  · simp only [hl] at h
    injection h with hin
    injection hin with ha hbc
    injection hbc with hb hp
    subst ha
    subst hb
    subst hp
    exact ⟨rfl, hl, by omega⟩

/-- A successfully built record retains the exact payload it was built
from (`_node_json` is the dict passed to `json.loads`). -/
theorem init_ok_node_json {f : String} {d : NodeJson} {n : HRCNode}
    (h : HRCNode.init f d = .ok n) : n.node_json = d := by
  simp only [HRCNode.init] at h
  repeat' split at h
  all_goals first
    | exact Except.noConfusion h
    | (injection h with hin; subst hin; rfl)

/-- A string starts with `/` exactly when its character list does. -/
theorem startsWith_slash_iff (s : String) :
    strStartsWith s "/" = true ↔ ∃ t, s.data = '/' :: t := by
  unfold strStartsWith
  have hd : ("/" : String).data = ['/'] := rfl
  rw [hd]
  cases hsd : s.data with
  | nil =>
    constructor
    · intro hp
      exact absurd hp (by decide)
    · rintro ⟨t, ht⟩
      cases ht
  | cons c t =>
    constructor
    · intro hp
      simp only [List.isPrefixOf, Bool.and_eq_true, beq_iff_eq] at hp
      exact ⟨t, by rw [← hp.1]⟩
    · rintro ⟨t2, ht⟩
      injection ht with h1 h2
      subst h1
      subst h2
      simp [List.isPrefixOf]

/-- `posixpath.join` returns an absolute second argument unchanged. -/
theorem pjoin_of_absolute (a b : String) (h : strStartsWith b "/" = true) :
    pjoin a b = b := by
  unfold pjoin
  rw [if_pos h]

/-- Appending to an absolute path keeps it absolute. -/
theorem strStartsWith_append_slash (a b : String)
    (h : strStartsWith a "/" = true) :
    strStartsWith (a ++ b) "/" = true := by
  obtain ⟨t, ht⟩ := (startsWith_slash_iff a).mp h
  refine (startsWith_slash_iff _).mpr ⟨t ++ b.data, ?_⟩
  rw [String.data_append, ht]
  rfl

/-- `normpath` preserves absoluteness. -/
theorem normpath_absolute (p : String) (h : strStartsWith p "/" = true) :
    strStartsWith (normpath p) "/" = true := by
  obtain ⟨t, ht⟩ := (startsWith_slash_iff p).mp h
  have hne : p ≠ "" := by
    intro he
    rw [he] at ht
    cases ht
  unfold normpath
  rw [if_neg hne, h]
  simp only [if_pos rfl]
  by_cases hd : (strStartsWith p "//" = true ∧ ¬ strStartsWith p "///" = true)
  · rw [if_pos hd]
    have : (['/', '/'] ++ List.intercalate ['/']
        (normpathComps (strStartsWith p "/") [] (splitSlash p.data))) ≠ [] := by
      simp
    rw [if_neg (by simp)]
    exact (startsWith_slash_iff _).mpr ⟨_, rfl⟩
  · rw [if_neg hd]
    rw [if_neg (by simp)]
    exact (startsWith_slash_iff _).mpr ⟨_, rfl⟩

/-- `os.path.abspath` under an absolute working directory (as `os.getcwd`
always returns) yields an absolute path. -/
theorem abspath_absolute (cwd p : String)
    (h : strStartsWith cwd "/" = true) :
    strStartsWith (abspath cwd p) "/" = true := by
  unfold abspath
  apply normpath_absolute
  unfold pjoin
  by_cases hb : strStartsWith p "/" = true
  · rw [if_pos hb]; exact hb
  · rw [if_neg hb]
    by_cases ha : cwd = "" ∨ strEndsWith cwd "/" = true
    · rw [if_pos ha]
      exact strStartsWith_append_slash _ _ h
    · rw [if_neg ha]
      exact strStartsWith_append_slash _ _ (strStartsWith_append_slash _ _ h)

/-- A string-branch canonicalization either succeeds or raises exactly the
`No such node` KeyError naming the item. -/
theorem canonStr_cases (fs : FS) (cwd nodes_path s : String) :
    (∃ k, canonStr fs cwd nodes_path s = .ok k) ∨
    canonStr fs cwd nodes_path s =
      .error (.keyError ("No such node " ++ s)) := by
  unfold canonStr
  split
  · exact .inl ⟨_, rfl⟩
  · split
    · exact .inl ⟨_, rfl⟩
    · exact .inr rfl

/-! ## Claim theorems -/

/-- Claim C1: two valid node references that canonicalize to the same
canonical path resolve to the identical cached record, and the backing
file is parsed at most once across the two resolutions: the first call
parses at most one file, and the second call returns the very record the
first call left in the cache, parsing nothing. -/
theorem C1_same_canonical_same_record (fs : FS) (cwd : String)
    (c : NodeCache) (r1 r2 : NodeRef) (k : String) (n1 : HRCNode)
    (c1 : NodeCache) (p1 : Nat)
    (h1 : canonicalize fs cwd c.nodes_path r1 = .ok (some k))
    (h2 : canonicalize fs cwd c.nodes_path r2 = .ok (some k))
    (h3 : NodeCache.getitem fs cwd c r1 = .ok (n1, c1, p1)) :
    NodeCache.getitem fs cwd c1 r2 = .ok (n1, c1, 0) ∧ p1 ≤ 1 := by
  obtain ⟨hnp, hlook, hp⟩ := getitem_ok_spec h1 h3
  refine ⟨?_, hp⟩
  simp only [NodeCache.getitem, hnp, h2, hlook]

/-- Witness for C1 at the fixture: the same file reached first by integer
id `0` (one parse) and then by bare filename `0.json` (cache hit, zero
parses, identical record). -/
theorem C1_same_canonical_same_record_witness :
    NodeCache.getitem fixFS fixCwd cacheAfter0 (.str "0.json") =
      .ok (node0rec, cacheAfter0, 0) ∧ 1 ≤ 1 :=
  C1_same_canonical_same_record fixFS fixCwd cache0 (.int 0) (.str "0.json")
    "/w/hand/nodes/0.json" node0rec cacheAfter0 1 (by decide) (by decide)
    (by decide)

/-- Claim C2 counterexample: at the fixture, `take_action(1)` on node 0
returns the fully loaded successor record — player, strategy map and all —
not the successor's node id, and the cache resolution (one file parse)
happens inside `take_action` itself rather than in the caller. -/
theorem C2_counterexample :
    node0rec.take_action fixFS fixCwd cacheAfter0 (.int 1) =
      .ok (some node1rec, cacheAfter01, 1)
    ∧ node1rec.player = some 2
    ∧ node1rec.hands ≠ []
    ∧ List.lookup "/w/hand/nodes/1.json" cacheAfter0.cache = none
    ∧ List.lookup "/w/hand/nodes/1.json" cacheAfter01.cache = some node1rec :=
  ⟨by decide, by decide, by decide, by decide, by decide⟩

/-- Claim C2 amended: for an in-range action index whose action has a
successor id, `take_action` resolves that id through the node cache
itself and returns the resulting successor record (with the updated cache
and its parse count); the caller receives the record, not the id. -/
theorem C2_amended_returns_resolved_record (fs : FS) (cwd : String)
    (c : NodeCache) (n : HRCNode) (i : Int) (nid : Int)
    (h0 : 0 ≤ i) (hlen : i.toNat < n.actions.length)
    (hs : (n.actions.get ⟨i.toNat, hlen⟩).next_id = some nid) :
    n.take_action fs cwd c (.int i) =
      (NodeCache.getitem fs cwd c (.int nid)).map
        (fun r => (some r.1, r.2.1, r.2.2)) := by
  simp only [HRCNode.take_action]
  rw [listPyGet_nonneg _ _ h0, List.get?_eq_get hlen]
  simp only [hs]
  cases NodeCache.getitem fs cwd c (.int nid) with
  | error e => rfl
  | ok r =>
    obtain ⟨nn, c2, p⟩ := r
    rfl

/-- Witness for the amended C2 at the fixture: taking action 1 of node 0
equals resolving id 1 through the cache and wrapping the record. -/
theorem C2_amended_witness :
    node0rec.take_action fixFS fixCwd cacheAfter0 (.int 1) =
      (NodeCache.getitem fixFS fixCwd cacheAfter0 (.int 1)).map
        (fun r => (some r.1, r.2.1, r.2.2)) :=
  C2_amended_returns_resolved_record fixFS fixCwd cacheAfter0 node0rec 1 1
    (by decide) (by decide) (by decide)

/-- Claim C3 counterexample: index `-2` is negative, hence outside
`[0, len(actions))`, yet `take_action(-2)` on fixture node 0 (two
actions) succeeds without any error — CPython indexing wraps it around to
action 0, the terminal fold. -/
theorem C3_counterexample :
    node0rec.take_action fixFS fixCwd cacheAfter0 (.int (-2)) =
      .ok (none, cacheAfter0, 0) := by
  decide

/-- Claim C3 amended: `take_action(i)` raises `IndexError` (never
returning a record) exactly for `i ≥ len(actions)` and for
`i < -len(actions)`; a negative `i` with `-len ≤ i < 0` behaves as
`i + len` (CPython wrap-around indexing) instead of failing. -/
theorem C3_amended_index_errors (fs : FS) (cwd : String) (c : NodeCache)
    (n : HRCNode) (i : Int) :
    ((n.actions.length : Int) ≤ i ∨ i < -(n.actions.length : Int) →
      n.take_action fs cwd c (.int i) =
        .error (.indexError "tuple index out of range"))
    ∧ (-(n.actions.length : Int) ≤ i → i < 0 →
      n.take_action fs cwd c (.int i) =
        n.take_action fs cwd c (.int (i + n.actions.length))) := by
  constructor
  · intro h
    simp only [HRCNode.take_action]
    rw [listPyGet_out_of_range _ _ h]
  · intro hge hlt
    simp only [HRCNode.take_action]
    rw [listPyGet_neg_wrap _ _ hge hlt]

/-- Witness for the amended C3 at the fixture: index 5 raises IndexError
on the two-action node 0, and index -1 behaves as index 1. -/
theorem C3_amended_witness :
    node0rec.take_action fixFS fixCwd cacheAfter0 (.int 5) =
      .error (.indexError "tuple index out of range")
    ∧ node0rec.take_action fixFS fixCwd cacheAfter0 (.int (-1)) =
      node0rec.take_action fixFS fixCwd cacheAfter0
        (.int (-1 + node0rec.actions.length)) :=
  ⟨(C3_amended_index_errors fixFS fixCwd cacheAfter0 node0rec 5).1
      (by decide),
   (C3_amended_index_errors fixFS fixCwd cacheAfter0 node0rec (-1)).2
      (by decide) (by decide)⟩

/-- Claim C4: an in-range action index whose action has no successor
(`next_id is None`) returns `None` — "no further node" — without raising
and without touching the cache. -/
theorem C4_terminal_returns_none (fs : FS) (cwd : String) (c : NodeCache)
    (n : HRCNode) (i : Int) (h0 : 0 ≤ i)
    (hlen : i.toNat < n.actions.length)
    (hterm : (n.actions.get ⟨i.toNat, hlen⟩).next_id = none) :
    n.take_action fs cwd c (.int i) = .ok (none, c, 0) := by
  simp only [HRCNode.take_action]
  rw [listPyGet_nonneg _ _ h0, List.get?_eq_get hlen]
  simp only [hterm]

/-- Witness for C4 at the fixture: action 0 of node 0 is the terminal
fold. -/
theorem C4_terminal_returns_none_witness :
    node0rec.take_action fixFS fixCwd cache0 (.int 0) =
      .ok (none, cache0, 0) :=
  C4_terminal_returns_none fixFS fixCwd cache0 node0rec 0 (by decide)
    (by decide) (by decide)

/-- Claim C5, code divergence: a node payload missing the required field
`player` loads successfully — the constructor catches the `KeyError`,
prints it, and continues — yielding a partially-built record whose
`player`, `street`, `children` and `sequence` attributes were never set,
instead of failing with a corrupt-node error. (A missing `actions` or
`hands` does fail, because those reads sit outside the `try` block.) -/
theorem C5_missing_field_not_fatal :
    nodeNoPlayerJson.player = none
    ∧ HRCNode.init "/w/hand/nodes/0.json" nodeNoPlayerJson =
      .ok { filename := "/w/hand/nodes/0.json", id := 0,
            node_json := nodeNoPlayerJson,
            player := none, street := none, children := none,
            sequence := none,
            actions := node0rec.actions, hands := node0rec.hands }
    ∧ HRCNode.init "/w/hand/nodes/1.json" nodeNoHandsJson =
      .error (.keyError "hands") :=
  ⟨by decide, by decide, by decide⟩

/-- Claim C6, code divergence: opening a session over an export whose
`1.json` lacks `hands` does not skip the corrupt node — the uncaught
`KeyError` aborts the whole session constructor and no node set is
produced — although the same export with a well-formed `1.json` loads
both siblings. -/
theorem C6_corrupt_node_aborts_session :
    HRCSim.init fixFSCorrupt fixCwd "/w/hand" ["0.json", "1.json"] =
      .error (.keyError "hands")
    ∧ HRCSim.init fixFS fixCwd "/w/hand" ["0.json", "1.json"] =
      .ok ([node0rec, node1rec], cacheAfter01) :=
  ⟨by decide, by decide⟩

/-- Claim C7 counterexample: resolving an item that is neither an integer
nor a string does not fail with a "node not found" error carrying the
original reference — canonicalization leaves the node path unset and node
construction raises a bare `TypeError` that names no reference. -/
theorem C7_counterexample :
    NodeCache.getitem fixFS fixCwd cache0 (.other "the float 1.5") =
      .error (.typeError
        "expected str, bytes or os.PathLike object, not NoneType")
    ∧ PyErr.typeError "expected str, bytes or os.PathLike object, not NoneType"
      ≠ PyErr.keyError "No such node the float 1.5" :=
  ⟨by decide, by decide⟩

/-- Claim C7 amended: an `int` or `str` reference that does not
canonicalize to an existing node file fails with the KeyError
`No such node …` naming the failed reference — the string exactly as
given, or, for an integer id, the canonical absolute path built from the
id (which embeds the id) — while an item that is neither an `int` nor a
`str` fails with a `TypeError` carrying no reference at all. -/
theorem C7_amended_not_found_errors :
    (∀ (fs : FS) (cwd : String) (c : NodeCache) (s : String),
      (∃ e, canonStr fs cwd c.nodes_path s = .error e) →
      NodeCache.getitem fs cwd c (.str s) =
        .error (.keyError ("No such node " ++ s)))
    ∧ (∀ (fs : FS) (cwd : String) (c : NodeCache) (nn : Int),
      strStartsWith cwd "/" = true →
      fexists fs cwd
        (abspath cwd (pjoin c.nodes_path (toString nn ++ ".json"))) = false →
      NodeCache.getitem fs cwd c (.int nn) =
        .error (.keyError ("No such node "
          ++ abspath cwd (pjoin c.nodes_path (toString nn ++ ".json")))))
    ∧ (∀ (fs : FS) (cwd : String) (c : NodeCache) (x : String),
      NodeCache.getitem fs cwd c (.other x) =
        .error (.typeError
          "expected str, bytes or os.PathLike object, not NoneType")) := by
  refine ⟨?_, ?_, ?_⟩
  · intro fs cwd c s he
    obtain ⟨e, he⟩ := he
    rcases canonStr_cases fs cwd c.nodes_path s with ⟨k, hk⟩ | herr
    · rw [hk] at he
      exact Except.noConfusion he
    · simp only [NodeCache.getitem, canonicalize, herr, Except.map]
  · intro fs cwd c nn hcwd hfe
    have habs :=
      abspath_absolute cwd (pjoin c.nodes_path (toString nn ++ ".json")) hcwd
    simp only [NodeCache.getitem, canonicalize]
    generalize hs2 :
      abspath cwd (pjoin c.nodes_path (toString nn ++ ".json")) = s2
        at habs hfe ⊢
    have hcs : canonStr fs cwd c.nodes_path s2 =
        .error (.keyError ("No such node " ++ s2)) := by
      unfold canonStr
      split
      · next hcond =>
        rw [hfe] at hcond
        exact absurd hcond.2.2 (by simp)
      · split
        · next hcond =>
          rw [pjoin_of_absolute c.nodes_path s2 habs, hfe] at hcond
          exact absurd hcond.2 (by simp)
        · rfl
    rw [hcs]
    rfl
  · intro fs cwd c x
    rfl

/-- Witness for the amended C7 at the fixture: a missing bare filename, a
missing id 999, and a non-int non-str item. -/
theorem C7_amended_witness :
    NodeCache.getitem fixFS fixCwd cache0 (.str "missing.json") =
      .error (.keyError "No such node missing.json")
    ∧ NodeCache.getitem fixFS fixCwd cache0 (.int 999) =
      .error (.keyError ("No such node "
        ++ abspath fixCwd
            (pjoin cache0.nodes_path (toString (999 : Int) ++ ".json"))))
    ∧ NodeCache.getitem fixFS fixCwd cache0 (.other "a None item") =
      .error (.typeError
        "expected str, bytes or os.PathLike object, not NoneType") :=
  ⟨C7_amended_not_found_errors.1 fixFS fixCwd cache0 "missing.json"
      ⟨.keyError "No such node missing.json", by decide⟩,
   C7_amended_not_found_errors.2.1 fixFS fixCwd cache0 999 (by decide)
      (by decide),
   C7_amended_not_found_errors.2.2 fixFS fixCwd cache0 "a None item"⟩

/-- Claim C8: re-parsing a loaded node's exported raw payload (`as_json`)
against the same backing file yields an identical record — in particular
identical id, player, street, history, actions and strategy. -/
theorem C8_round_trip (f : String) (d : NodeJson) (n : HRCNode)
    (h : HRCNode.init f d = .ok n) :
    HRCNode.init f n.as_json = .ok n := by
  rw [HRCNode.as_json, init_ok_node_json h]
  exact h

/-- Witness for C8 at the fixture: node 0 round-trips. -/
theorem C8_round_trip_witness :
    HRCNode.init "/w/hand/nodes/0.json" node0rec.as_json = .ok node0rec :=
  C8_round_trip "/w/hand/nodes/0.json" node0Json node0rec (by decide)

/-- Claim C9: an available action whose `type` is any string outside
{R, F, C} is still constructed successfully, and the stored kind is the
input string verbatim. -/
theorem C9_unknown_kind_preserved (d : ActionJson) (t : String) (amt : Rat)
    (_hk : t ≠ "R" ∧ t ≠ "F" ∧ t ≠ "C")
    (ht : d.type = some t) (ha : d.amount = some amt) :
    Action.init d =
      .ok { player := d.player, type := t, amount := amt,
            next_id := d.node } := by
  simp only [Action.init, ht, ha]

/-- Witness for C9: the unrecognized kind `X2` is stored verbatim. -/
theorem C9_unknown_kind_preserved_witness :
    Action.init
        { player := none, type := some "X2", amount := some 0, node := none } =
      .ok { player := none, type := "X2", amount := 0, next_id := none } :=
  C9_unknown_kind_preserved
    { player := none, type := some "X2", amount := some 0, node := none }
    "X2" 0 (by decide) rfl rfl

/-- Claim C10: `take_action` with a non-integer argument — a string or
any other object — raises `RuntimeError` and never returns a record or a
terminal result. -/
theorem C10_non_int_action_rejected (fs : FS) (cwd : String)
    (c : NodeCache) (n : HRCNode) (s x : String) :
    n.take_action fs cwd c (.str s) =
      .error (.runtimeError "Can only take integer actions")
    ∧ n.take_action fs cwd c (.other x) =
      .error (.runtimeError "Can only take integer actions") :=
  ⟨rfl, rfl⟩

end Hrc
